import Mathlib

/-!
# Verification of the Monty Hall / two-children notebook (`ch2.ipynb`)

Shallow embedding of the procedural cells of the notebook:

* the `monty` trial function (simulation mode and interactive mode),
* the never-switch estimator cell,
* the trial-aggregator loop, and
* the two-children conditional-probability numerators.

Doors are the numpy array `doors = np.arange(3) = [0, 1, 2]`, modelled as a
list of naturals.  The contestant's choice is a natural number because the
Python code parses it with `int(...)` and performs no range check.  Random
draws (`choice(doors, 1)[0]` and the host's tie-break draw) are explicit
parameters.
-/

namespace Ch2

/-- doors = np.arange(3): the array [0, 1, 2]. -/
def doors : List ℕ := [0, 1, 2]

/-- The array `doors[np.all([doors != chosen, doors != cardoor], axis=0)]`:
the doors that differ both from the contestant's door and from the car door.
This is the array that the code assigns to `montydoor` when
`chosen != cardoor`. -/
def montyRevealArray (chosen cardoor : ℕ) : List ℕ :=
  doors.filter (fun d => d ≠ chosen && d ≠ cardoor)

/-- The array `doors[doors != chosen]` from which the host draws uniformly
when `chosen == cardoor`. -/
def hostCandidates (chosen : ℕ) : List ℕ :=
  doors.filter (fun d => d ≠ chosen)

/-- Monty's door.  When `chosen != cardoor` the code takes the (unique, for
in-range inputs) element of `montyRevealArray`; otherwise it draws uniformly
from `hostCandidates chosen`, here indexed by the explicit random draw
`hostDraw`.  The default `3` is an invalid-door marker that is never reached
for in-range inputs. -/
def montyReveal (chosen cardoor : ℕ) (hostDraw : Fin 2) : ℕ :=
  if chosen ≠ cardoor then (montyRevealArray chosen cardoor).headD 3
  else ((hostCandidates chosen).get? (hostDraw : ℕ)).getD 3

/-- The array doors[np.all([doors != chosen, doors != montydoor], axis=0)]: the door
the contestant holds after switching, the unique (for in-range, distinct
inputs) door that is neither the pre-switch choice nor Monty's door. -/
def switchDoor (chosen montydoor : ℕ) : ℕ :=
  (doors.filter (fun d => d ≠ chosen && d ≠ montydoor)).headD 3

/-- Simulation mode, monty(simulate=True): the contestant picks door 0, Monty reveals a
door, the contestant always switches, and the trial succeeds iff the final
door is the car door. -/
def montySim (cardoor : ℕ) (hostDraw : Fin 2) : Bool :=
  let chosen := 0
  let montydoor := montyReveal chosen cardoor hostDraw
  let chosen := switchDoor chosen montydoor
  chosen == cardoor

end Ch2

namespace Ch2

/-- C1. Reveal invariant: for every in-range pair of contestant door and
car door and every host draw, Monty's door differs from both; when
`chosen ≠ cardoor` it is the unique door distinct from both, and when
`chosen = cardoor` it is one of the two non-chosen doors. -/
theorem monty_reveal_invariant (chosen cardoor : ℕ) (hc : chosen < 3)
    (hcar : cardoor < 3) (hostDraw : Fin 2) :
    montyReveal chosen cardoor hostDraw ≠ cardoor ∧
    montyReveal chosen cardoor hostDraw ≠ chosen ∧
    (chosen ≠ cardoor →
      montyRevealArray chosen cardoor = [montyReveal chosen cardoor hostDraw]) ∧
    (chosen = cardoor →
      montyReveal chosen cardoor hostDraw ∈ hostCandidates chosen) := by
  interval_cases chosen <;> interval_cases cardoor <;> revert hostDraw <;> decide

/-- Witness for C1 at `chosen = 0`, `cardoor = 1`, `hostDraw = 0`. -/
theorem monty_reveal_invariant_witness :
    montyReveal 0 1 0 ≠ 1 ∧ montyReveal 0 1 0 ≠ 0 ∧
    ((0 : ℕ) ≠ 1 → montyRevealArray 0 1 = [montyReveal 0 1 0]) ∧
    ((0 : ℕ) = 1 → montyReveal 0 1 0 ∈ hostCandidates 0) :=
  monty_reveal_invariant 0 1 (by decide) (by decide) 0

/-- C2. Switch invariant: whenever the switch is taken, with in-range
pre-switch door and Monty door that differ, the new door differs from both
and is the unique such door among {0,1,2}. -/
theorem switch_invariant (chosen montydoor : ℕ) (hc : chosen < 3)
    (hm : montydoor < 3) (hne : montydoor ≠ chosen) :
    switchDoor chosen montydoor ≠ chosen ∧
    switchDoor chosen montydoor ≠ montydoor ∧
    switchDoor chosen montydoor < 3 ∧
    ∀ d : ℕ, d < 3 → d ≠ chosen → d ≠ montydoor →
      d = switchDoor chosen montydoor := by
  interval_cases chosen <;> interval_cases montydoor <;> simp_all <;> decide

/-- Witness for C2 at `chosen = 0`, `montydoor = 2`. -/
theorem switch_invariant_witness :
    switchDoor 0 2 ≠ 0 ∧ switchDoor 0 2 ≠ 2 ∧ switchDoor 0 2 < 3 ∧
    ∀ d : ℕ, d < 3 → d ≠ 0 → d ≠ 2 → d = switchDoor 0 2 :=
  switch_invariant 0 2 (by decide) (by decide) (by decide)

/-- C3. In simulation mode (initial choice 0, always switch), for every
value of the random draws the trial succeeds iff the car door differs
from 0. -/
theorem montySim_success_iff (cardoor : ℕ) (hcar : cardoor < 3)
    (hostDraw : Fin 2) :
    montySim cardoor hostDraw = true ↔ cardoor ≠ 0 := by
  interval_cases cardoor <;> revert hostDraw <;> decide

/-- Witness for C3 at `cardoor = 1`, `hostDraw = 0`. -/
theorem montySim_success_iff_witness :
    montySim 1 0 = true ↔ (1 : ℕ) ≠ 0 :=
  montySim_success_iff 1 (by decide) 0

/-- C4. Concrete scenario `cardoor = 1`, `chosen = 0`: for either host
draw, Monty deterministically reveals door 2, the always-switch step moves
the contestant to door 1, and the trial returns success. -/
theorem monty_scenario_car1 :
    (∀ hostDraw : Fin 2, montyReveal 0 1 hostDraw = 2) ∧
    switchDoor 0 2 = 1 ∧
    (∀ hostDraw : Fin 2, montySim 1 hostDraw = true) := by
  decide

end Ch2

namespace Ch2

/-- Python-level runtime errors raised on the interactive path of `monty`:
ValueError from int(...) on a non-numeric string, and IndexError from
reply[0] on the empty string. -/
inductive PyError
  | valueError
  | indexError
deriving DecidableEq

/-- One decimal digit, as accepted by the Python builtin int(...). -/
def pyDigit (c : Char) : Option ℕ :=
  if '0' ≤ c ∧ c ≤ '9' then some (c.toNat - '0'.toNat) else none

/-- The decimal value of a digit string, `none` as soon as a non-digit
appears. -/
def pyDigits (cs : List Char) (acc : ℕ) : Option ℕ :=
  match cs with
  | [] => some acc
  | c :: rest =>
    match pyDigit c with
    | none => none
    | some d => pyDigits rest (acc * 10 + d)

/-- The Python builtin int(...) on a string, as used by the source: an
optional minus sign followed by at least one decimal digit; anything else
raises ValueError, modelled as `none`. -/
def pyInt (s : String) : Except PyError ℤ :=
  match s.data with
  | [] => Except.error PyError.valueError
  | '-' :: c :: rest =>
    match pyDigits (c :: rest) 0 with
    | none => Except.error PyError.valueError
    | some n => Except.ok (-(n : ℤ))
  | cs =>
    match pyDigits cs 0 with
    | none => Except.error PyError.valueError
    | some n => Except.ok (n : ℤ)

/-- Parsing chosen = int(input(...)) in interactive mode: a non-numeric
string raises ValueError; any numeric string is accepted, with no range
check whatsoever. -/
def parseDoorInput (s : String) : Except PyError ℤ :=
  pyInt s

/-- Interactive mode of `monty` after the door choice has been parsed to an
in-range value: Monty reveals a door, reply[0] is inspected (IndexError on
the empty reply), the contestant switches exactly when that first character
is the lowercase letter y, and the trial succeeds iff the final door is the
car door. -/
def montyInteractive (chosen : ℕ) (reply : String) (cardoor : ℕ)
    (hostDraw : Fin 2) : Except PyError Bool :=
  let montydoor := montyReveal chosen cardoor hostDraw
  match reply.data with
  | [] => Except.error PyError.indexError
  | c :: _ =>
    let chosen := if c = 'y' then switchDoor chosen montydoor else chosen
    Except.ok (chosen == cardoor)

/-- The per-trial drawing of the global random stream `s`:
cardoor = choice(doors, 1)[0] is the first draw reduced mod 3, the host's
tie-break is the second draw reduced mod 2; nothing else of the stream is
consumed. -/
def montySimStream (s : ℕ → ℕ) : Bool :=
  montySim (s 0 % 3) ⟨s 1 % 2, Nat.mod_lt _ (by decide)⟩

/-- The aggregator loop body: results = [monty(simulate=True) for each of
the n trials], trial i using its own random draws d i. -/
def runTrials (n : ℕ) (d : ℕ → ℕ × Fin 2) : List Bool :=
  (List.range n).map (fun i => montySim (d i).1 (d i).2)

/-- np.sum over a boolean mask or result list: the number of True entries. -/
def npSum (m : List Bool) : ℕ := m.countP id

/-- Float division as performed by np.sum(results)/float(n).  numpy float
division by zero does not raise: 0.0/0.0 silently produces NaN (with a
RuntimeWarning); the NaN/undefined outcome is modelled as `none`. -/
def floatDiv (a b : ℚ) : Option ℚ :=
  if b = 0 then none else some (a / b)

/-- The trial aggregator: run monty(simulate=True) n times and report
np.sum(results)/float(n). -/
def aggregate (n : ℕ) (d : ℕ → ℕ × Fin 2) : Option ℚ :=
  floatDiv (npSum (runTrials n d) : ℚ) (n : ℚ)

/-- The never-switch estimator cell computes np.sum(cardoor == 0)/float(n):
a trial of the never-switch strategy succeeds iff its drawn car door is
door 0. -/
def neverSwitchSuccess (cardoor : ℕ) : Bool := cardoor == 0

/-- The mask child == 0 selecting the trials where the child is a girl. -/
def girlMask (child : List ℕ) : List Bool := child.map (fun g => g == 0)

/-- np.all([m1, m2], axis=0): elementwise conjunction of two masks. -/
def npAll2 (m1 m2 : List Bool) : List Bool := List.zipWith and m1 m2

/-- np.any([m1, m2], axis=0): elementwise disjunction of two masks. -/
def npAny2 (m1 m2 : List Bool) : List Bool := List.zipWith or m1 m2

/-- The numerator n_ab of the elder-girl cell:
np.sum(np.all([child1 == 0, child2 == 0], axis=0)). -/
def n_ab_elder (child1 child2 : List ℕ) : ℕ :=
  npSum (npAll2 (girlMask child1) (girlMask child2))

/-- The numerator n_ab of the at-least-one-girl cell:
np.sum(np.all([child1 == 0, child2 == 0], axis=0)). -/
def n_ab_atLeastOne (child1 child2 : List ℕ) : ℕ :=
  npSum (npAll2 (girlMask child1) (girlMask child2))

/-- Helper: the masked-and-summed numerator counts the aligned pairs of
trials in which both children are girls. -/
theorem npSum_npAll2_girlMask (child1 child2 : List ℕ) :
    npSum (npAll2 (girlMask child1) (girlMask child2)) =
      (child1.zip child2).countP (fun p => p.1 == 0 && p.2 == 0) := by
  induction child1 generalizing child2 with
  | nil => simp [npSum, npAll2, girlMask]
  | cons a l ih =>
    cases child2 with
    | nil => simp [npSum, npAll2, girlMask]
    | cons b m =>
      have h := ih m
      simp only [npSum, npAll2, girlMask] at h
      simp only [npSum, npAll2, girlMask, List.map_cons, List.zipWith_cons_cons,
        List.zip_cons_cons, List.countP_cons, id_eq, h]

end Ch2

namespace Ch2

/-- C5. Code bug relative to the spec: interactive mode performs no range
check.  A non-numeric entry does raise (ValueError), but the numeric
out-of-range entry 3 parses successfully and the trial proceeds to the
reveal step, where (for cardoor = 1) the mask selects the two-element
array [0, 2] instead of failing with an InvalidInput error. -/
theorem out_of_range_choice_proceeds :
    parseDoorInput "abc" = Except.error PyError.valueError ∧
    parseDoorInput "3" = Except.ok 3 ∧
    montyRevealArray 3 1 = [0, 2] := by
  refine ⟨?_, ?_, by decide⟩ <;> rfl

/-- C6. Code bug relative to the spec: the aggregator run with N = 0 trials
divides np.sum([]) = 0.0 by float(0) = 0.0, producing the NaN marker rather
than raising a DegenerateTrialCount error. -/
theorem aggregate_zero_trials_nan (d : ℕ → ℕ × Fin 2) :
    aggregate 0 d = none := by
  simp [aggregate, floatDiv, runTrials, npSum]

/-- C7. Exact per-trial success probabilities under the uniform random
draws: the always-switch simulation succeeds on 2/3 of the equally likely
(cardoor, host draw) pairs, and the never-switch estimator's success event
cardoor == 0 holds on 1/3 of the equally likely car doors.  These are the
limits the empirical frequencies converge to. -/
theorem monty_success_probabilities :
    ((Finset.univ.filter
        (fun p : Fin 3 × Fin 2 => montySim (p.1 : ℕ) p.2 = true)).card : ℚ) /
      ((Finset.univ : Finset (Fin 3 × Fin 2)).card : ℚ) = 2 / 3 ∧
    ((Finset.univ.filter
        (fun c : Fin 3 => neverSwitchSuccess (c : ℕ) = true)).card : ℚ) /
      ((Finset.univ : Finset (Fin 3)).card : ℚ) = 1 / 3 := by
  have h1 : (Finset.univ.filter
      (fun p : Fin 3 × Fin 2 => montySim (p.1 : ℕ) p.2 = true)).card = 4 := by
    decide
  have h2 : (Finset.univ.filter
      (fun c : Fin 3 => neverSwitchSuccess (c : ℕ) = true)).card = 1 := by
    decide
  rw [h1, h2]
  norm_num [Finset.card_univ]

/-- C8. The two n_ab expressions of the two-children cells are the same
computation: on every pair of gender sequences they agree, and both count
the aligned trials where child1 and child2 are both girls. -/
theorem n_ab_cells_agree (child1 child2 : List ℕ) :
    n_ab_elder child1 child2 = n_ab_atLeastOne child1 child2 ∧
    n_ab_elder child1 child2 =
      (child1.zip child2).countP (fun p => p.1 == 0 && p.2 == 0) :=
  ⟨rfl, npSum_npAll2_girlMask child1 child2⟩

/-- C9. Purity and determinism: a simulated trial depends only on the two
random draws it consumes (two streams agreeing on draws 0 and 1 give equal
results), every invocation returns exactly one boolean, and within the
aggregator loop trial i depends only on its own draws d i, not on any state
left by other trials. -/
theorem monty_pure (s t : ℕ → ℕ) (d e : ℕ → ℕ × Fin 2) (n i : ℕ)
    (h0 : s 0 = t 0) (h1 : s 1 = t 1) (hi : i < n) (hde : d i = e i) :
    montySimStream s = montySimStream t ∧
    (montySimStream s = true ∨ montySimStream s = false) ∧
    (runTrials n d)[i]? = (runTrials n e)[i]? := by
  refine ⟨by simp [montySimStream, h0, h1], ?_, ?_⟩
  · cases montySimStream s <;> simp
  · simp [runTrials, List.getElem?_map, List.getElem?_range hi, hde]

/-- Witness for C9 with constant streams and a single trial. -/
theorem monty_pure_witness :
    montySimStream (fun _ => 0) = montySimStream (fun j => j * 0) ∧
    (montySimStream (fun _ => 0) = true ∨
      montySimStream (fun _ => 0) = false) ∧
    (runTrials 1 (fun _ => (1, 0)))[0]? =
      (runTrials 1 (fun _ => (1, 0)))[0]? :=
  monty_pure (fun _ => 0) (fun j => j * 0) (fun _ => (1, 0))
    (fun _ => (1, 0)) 1 0 (by decide) (by decide) (by decide) rfl

/-- C10. Interactive reply handling: the empty reply makes the trial fail
with IndexError before any switch decision; a reply whose first character
is the lowercase letter y takes the switch; a reply with any other first
character (uppercase Y included) leaves the choice unchanged. -/
theorem monty_reply_handling (chosen cardoor : ℕ) (hostDraw : Fin 2)
    (c : Char) (rest : List Char) (hc : c ≠ 'y') :
    montyInteractive chosen "" cardoor hostDraw =
      Except.error PyError.indexError ∧
    montyInteractive chosen (String.mk ('y' :: rest)) cardoor hostDraw =
      Except.ok
        (switchDoor chosen (montyReveal chosen cardoor hostDraw) == cardoor) ∧
    montyInteractive chosen (String.mk (c :: rest)) cardoor hostDraw =
      Except.ok (chosen == cardoor) := by
  refine ⟨rfl, by simp [montyInteractive], by simp [montyInteractive, hc]⟩

/-- Witness for C10 at chosen = 0, cardoor = 1, first reply character Y. -/
theorem monty_reply_handling_witness :
    montyInteractive 0 "" 1 0 = Except.error PyError.indexError ∧
    montyInteractive 0 (String.mk ('y' :: [])) 1 0 =
      Except.ok (switchDoor 0 (montyReveal 0 1 0) == 1) ∧
    montyInteractive 0 (String.mk ('Y' :: [])) 1 0 = Except.ok (0 == 1) :=
  monty_reply_handling 0 1 0 'Y' [] (by decide)

end Ch2
